import Mathlib

/-!
Shallow embedding of the junocash P2Pool supervisor sources
(`src/p2pool_manager.cpp`, `src/p2pool_client.cpp`, `src/p2pool_status.cpp`)
and proofs about the spec's claims.

Modelling conventions:
* JSON documents handled through the univalue library are modelled by the
  inductive `JValue`; numbers are carried as `Int` (the claims under study
  only involve integral values).
* Exception-based control flow (`throw std::runtime_error(msg)`) is
  modelled with `Except String`, carrying the thrown message.
* Network and OS interactions are modelled by explicit outcome/environment
  values handed to the embedded functions (the status code and parsed body
  of a reply, the liveness of a process at each poll instant, the result
  of a spawn).
-/

/-! ## Constants (from `p2pool_manager.h` and `p2pool_status.h`) -/

def MAX_RESTART_ATTEMPTS : Nat := 5

def HEALTH_CHECK_INTERVAL_MS : Nat := 5000

def MAX_HTTP_FAILURES : Nat := 3

def GRACEFUL_SHUTDOWN_WAIT_MS : Nat := 5000

def CACHE_TTL_SECONDS : Int := 5

/-! ## JSON values (model of the univalue library's `UniValue`) -/

/-- Model of a univalue JSON value. Numbers are restricted to integers,
which covers every value the verified code paths construct or consume. -/
inductive JValue where
  | null
  | bool (b : Bool)
  | num (n : Int)
  | str (s : String)
  | arr (elems : List JValue)
  | obj (entries : List (String × JValue))

def JValue.isNull : JValue → Bool
  | .null => true
  | _ => false

def JValue.isObject : JValue → Bool
  | .obj _ => true
  | _ => false

def JValue.isNum : JValue → Bool
  | .num _ => true
  | _ => false

def JValue.isBool : JValue → Bool
  | .bool _ => true
  | _ => false

/-- Model of univalue `find_value(obj, name)`: the value stored under the
first matching key of an object, `null` when absent or when the value is
not an object. -/
def find_value : JValue → String → JValue
  | .obj entries, name =>
    match entries.find? (fun kv => kv.1 = name) with
    | some kv => kv.2
    | none => .null
  | _, _ => .null

/-- Model of univalue `UniValue::exists(key)`. -/
def JValue.existsKey (v : JValue) (name : String) : Bool :=
  match v with
  | .obj entries => entries.any (fun kv => kv.1 = name)
  | _ => false

/-- Model of univalue `get_str()`: `some` for strings, `none` standing for
the `std::runtime_error` thrown on every other value kind. -/
def JValue.getStr : JValue → Option String
  | .str s => some s
  | _ => none

/-- Model of univalue `get_int()`: `checkType(VNUM)` then `ParseInt32` of
the stored text, throwing `"JSON integer out of range"` (modelled as
`Except.error`) when the value falls outside the int32 range. -/
def getIntE : JValue → Except String Int
  | .num n =>
    if -(2 ^ 31) ≤ n ∧ n ≤ 2 ^ 31 - 1 then .ok n
    else .error "JSON integer out of range"
  | _ => .error "JSON value is not an integer as expected"

/-- Model of univalue `get_int64()`: as `get_int` but with the int64
range check of `ParseInt64`. -/
def getInt64E : JValue → Except String Int
  | .num n =>
    if -(2 ^ 63) ≤ n ∧ n ≤ 2 ^ 63 - 1 then .ok n
    else .error "JSON integer out of range"
  | _ => .error "JSON value is not an integer as expected"

/-- Model of univalue `get_real()`: `checkType(VNUM)` then `ParseDouble`,
which fails (throwing `"JSON double out of range"`) exactly when the
decimal value rounds to infinity, i.e. when its magnitude reaches the
rounding midpoint `2^1024 - 2^970` above `DBL_MAX`. The in-range value is
carried exactly as an `Int` rather than rounded to the nearest double; no
claim under study depends on the rounded value. -/
def getRealE : JValue → Except String Int
  | .num n =>
    if -(2 ^ 1024 - 2 ^ 970) < n ∧ n < 2 ^ 1024 - 2 ^ 970 then .ok n
    else .error "JSON double out of range"
  | _ => .error "JSON value is not a number as expected"

/-- One hexadecimal digit, used by the JSON string escaper. -/
def hexDigit (n : Nat) : Char :=
  if n < 10 then Char.ofNat (48 + n) else Char.ofNat (87 + n)

/-- univalue's per-character JSON string escaping (escape table of
`univalue_write.cpp`): named escapes for the usual control characters,
`\uXXXX` for the remaining control characters and for 0x7f. -/
def escChar (c : Char) : String :=
  if c = '"' then "\\\""
  else if c = '\\' then "\\\\"
  else if c = '\x08' then "\\b"
  else if c = '\x0c' then "\\f"
  else if c = '\n' then "\\n"
  else if c = '\r' then "\\r"
  else if c = '\t' then "\\t"
  else if c.toNat < 32 ∨ c.toNat = 127 then
    String.mk ['\\', 'u', '0', '0', hexDigit (c.toNat / 16), hexDigit (c.toNat % 16)]
  else String.singleton c

def jsonEscape (s : String) : String :=
  String.join (s.toList.map escChar)

mutual

/-- Model of univalue `UniValue::write()` (compact form, no indentation). -/
def JValue.write : JValue → String
  | .null => "null"
  | .bool b => if b then "true" else "false"
  | .num n => toString n
  | .str s => "\"" ++ jsonEscape s ++ "\""
  | .arr elems => "[" ++ JValue.writeArr elems ++ "]"
  | .obj entries => "\x7b" ++ JValue.writeObj entries ++ "\x7d"

def JValue.writeArr : List JValue → String
  | [] => ""
  | [v] => JValue.write v
  | v :: vs => JValue.write v ++ "," ++ JValue.writeArr vs

def JValue.writeObj : List (String × JValue) → String
  | [] => ""
  | [(k, v)] => "\"" ++ jsonEscape k ++ "\":" ++ JValue.write v
  | (k, v) :: kvs =>
    "\"" ++ jsonEscape k ++ "\":" ++ JValue.write v ++ "," ++ JValue.writeObj kvs

end

/-! ## `P2PoolClient::CallMethod` (`p2pool_client.cpp:73-127`)

The HTTP exchange is summarised by its observables: the response status
code accumulated in `HTTPReply` (0 when the connection failed or timed
out, i.e. when the callback received `req == NULL`), and the body given as
`none` when `UniValue::read` fails on it, `some v` when it parses to `v`. -/

/-- Model of `P2PoolClient::CallMethod` after the HTTP exchange completed:
classifies the response exactly as the source's sequence of checks does,
`Except.error` carrying the message of the `std::runtime_error` thrown
(the non-object case carries univalue `get_obj`'s message). -/
def CallMethod (status : Nat) (body : Option JValue) : Except String JValue :=
  if status = 0 then
    .error "couldn't connect to p2pool server"
  else if status ≠ 200 then
    .error ("server returned HTTP error " ++ toString status)
  else
    match body with
    | none => .error "couldn't parse reply from server"
    | some v =>
      match v with
      | .obj entries =>
        if entries.isEmpty then
          .error "expected reply to have result"
        else
          let err := find_value (.obj entries) "error"
          if err.isNull then
            .ok (find_value (.obj entries) "result")
          else
            .error ("RPC error: " ++ err.write)
      | _ => .error "JSON value is not an object as expected"

/-! ## `P2PoolStatusMonitor` (`p2pool_status.cpp`) -/

/-- Model of the `P2PoolStatus` struct with its default constructor values
(`connected=false`, every numeric field zero). The two `double` fields
(`poolHashrate`, `effortPercent`) are carried as `Int`, which is exact for
every value the verified claims involve (in particular their zero
defaults). -/
structure P2PoolStatus where
  connected : Bool := false
  connectedMiners : Int := 0
  totalShares : Int := 0
  poolHashrate : Int := 0
  shareDifficulty : Int := 0
  lastShareTimestamp : Int := 0
  networkDifficulty : Int := 0
  effortPercent : Int := 0
deriving Repr, DecidableEq

/-- The snapshot produced by `P2PoolStatus()`'s default constructor. -/
def P2PoolStatus.init : P2PoolStatus := {}

/-- The body of the HTTP reply as `FetchStatus` observes it: the empty
string, a non-empty string `UniValue::read` rejects, or a non-empty string
parsing to a JSON value. -/
inductive FetchBody where
  | empty
  | unparsable
  | parsed (v : JValue)

/-- Outcome of one stats fetch attempt, covering every exit path of
`P2PoolStatusMonitor::FetchStatus` up to the reply processing: an
exception thrown inside the `try` block before the reply is processed
(e.g. `std::stoi` on a malformed `-p2poolurl` port), failure to obtain
the libevent base / connection / request objects, or a completed event
loop leaving a status code and body (status code 0 with an empty body
when the callback got `req == NULL`, i.e. connect failure or timeout).
Exceptions thrown later, by the univalue getters during field extraction
of a parsed 200 body, are modelled inside `extractSteps`/`FetchThrew`,
since they depend only on the parsed body. -/
inductive FetchOutcome where
  | urlException
  | noEventBase
  | noConn
  | noReq
  | reply (status_code : Nat) (body : FetchBody)

/-- One guarded field extraction (the `if (x.isNum()) field = x.get_xxx();`
pattern of `p2pool_status.cpp:158-232`): when the JSON value is numeric,
run the univalue getter and store its value; a getter throw (second
component `true`) aborts extraction with the snapshot built so far, since
the throw transfers control to the catch at `p2pool_status.cpp:237`. -/
def tryNum (s : P2PoolStatus) (v : JValue) (g : JValue → Except String Int)
    (upd : P2PoolStatus → Int → P2PoolStatus) : P2PoolStatus × Bool :=
  if v.isNum then
    match g v with
    | .ok n => (upd s n, false)
    | .error _ => (s, true)
  else (s, false)

/-- Sequencing of extraction steps: once a getter has thrown, control is
on its way to the catch and no later statement runs. -/
def extractSeq (r : P2PoolStatus × Bool) (f : P2PoolStatus → P2PoolStatus × Bool) :
    P2PoolStatus × Bool :=
  if r.2 then r else f r.1

/-- Field extraction of `FetchStatus` on a parsed JSON object
(`p2pool_status.cpp:158-232`), in the source's order and with its
fallback key choices; the second component records whether some univalue
getter threw (reaching the catch with the partially-built snapshot). -/
def extractSteps (v : JValue) (s0 : P2PoolStatus) : P2PoolStatus × Bool :=
  extractSeq
    (if (find_value v "connections").isNum then
       tryNum s0 (find_value v "connections") getIntE
         (fun s n => { s with connectedMiners := n })
     else if (find_value v "connections").isObject then
       tryNum s0 (find_value (find_value v "connections") "incoming") getIntE
         (fun s n => { s with connectedMiners := n })
     else (s0, false)) fun s1 =>
  extractSeq (tryNum s1 (find_value v "shares_found") getInt64E
      (fun s n => { s with totalShares := n })) fun s2 =>
  extractSeq
    (if (find_value v "pool_hashrate").isNum then
       tryNum s2 (find_value v "pool_hashrate") getRealE
         (fun s n => { s with poolHashrate := n })
     else
       tryNum s2 (find_value v "hashrate") getRealE
         (fun s n => { s with poolHashrate := n })) fun s3 =>
  extractSeq
    (if (find_value v "current_share_diff").isNum then
       tryNum s3 (find_value v "current_share_diff") getInt64E
         (fun s n => { s with shareDifficulty := n })
     else
       tryNum s3 (find_value v "sidechain_difficulty") getInt64E
         (fun s n => { s with shareDifficulty := n })) fun s4 =>
  extractSeq (tryNum s4 (find_value v "last_share_timestamp") getInt64E
      (fun s n => { s with lastShareTimestamp := n })) fun s5 =>
  extractSeq
    (if (find_value v "network_difficulty").isNum then
       tryNum s5 (find_value v "network_difficulty") getInt64E
         (fun s n => { s with networkDifficulty := n })
     else
       tryNum s5 (find_value v "mainchain_difficulty") getInt64E
         (fun s n => { s with networkDifficulty := n })) fun s6 =>
  extractSeq (tryNum s6 (find_value v "pool_effort") getRealE
      (fun s n => { s with effortPercent := n })) fun s7 =>
  if s7.connectedMiners = 0 then
    if (find_value v "stratum").isObject then
      tryNum s7 (find_value (find_value v "stratum") "connections") getIntE
        (fun s n => { s with connectedMiners := n })
    else (s7, false)
  else (s7, false)

/-- The snapshot `FetchStatus` produces from a parsed body
(`p2pool_status.cpp:152-233`): `connected` is set to true as soon as the
body parses, before any field extraction; when a getter throws mid-way
the catch at line 237 returns the snapshot built so far — `connected`
stays true and already-extracted fields keep their values. -/
def extractStats (v : JValue) : P2PoolStatus :=
  let s0 : P2PoolStatus := { P2PoolStatus.init with connected := true }
  if v.isObject then (extractSteps v s0).1 else s0

/-- Model of `P2PoolStatusMonitor::FetchStatus` (`p2pool_status.cpp:64-242`):
every failure path up to the reply processing returns the
default-constructed snapshot; a 200 reply with a non-empty body that
parses is handed to the field extractor (whose own getter throws are
caught and yield the partially-built snapshot). -/
def FetchStatus : FetchOutcome → P2PoolStatus
  | .urlException => P2PoolStatus.init
  | .noEventBase => P2PoolStatus.init
  | .noConn => P2PoolStatus.init
  | .noReq => P2PoolStatus.init
  | .reply status_code body =>
    if status_code = 200 then
      match body with
      | .empty => P2PoolStatus.init
      | .unparsable => P2PoolStatus.init
      | .parsed v => extractStats v
    else P2PoolStatus.init

/-- Whether the source's catch at `p2pool_status.cpp:237` was reached on
this outcome: for the pre-reply exception (e.g. the URL stoi) and for a
univalue getter throw during extraction of a parsed 200 object body. -/
def FetchThrew : FetchOutcome → Bool
  | .urlException => true
  | .reply status_code body =>
    if status_code = 200 then
      match body with
      | .parsed v =>
        if v.isObject then
          (extractSteps v { P2PoolStatus.init with connected := true }).2
        else false
      | _ => false
    else false
  | _ => false

/-- The monitor's cached state: last fetched snapshot and its timestamp
(`m_cachedStatus`, `m_lastUpdate`; the latter is `0` at construction). -/
structure CacheState where
  cachedStatus : P2PoolStatus := P2PoolStatus.init
  lastUpdate : Int := 0
deriving Repr, DecidableEq

/-- Model of `P2PoolStatusMonitor::GetStatus` (`p2pool_status.cpp:34-49`):
given the current time and the outcome a fetch would produce, returns the
snapshot handed to the caller, the updated cache state, and whether a
network fetch was issued. -/
def GetStatus (now : Int) (o : FetchOutcome) (st : CacheState) :
    P2PoolStatus × CacheState × Bool :=
  if now - st.lastUpdate < CACHE_TTL_SECONDS then
    (st.cachedStatus, st, false)
  else
    (FetchStatus o, ⟨FetchStatus o, now⟩, true)

/-- Model of `P2PoolStatusMonitor::RefreshStatus` (`p2pool_status.cpp:51-56`):
unconditionally fetches and replaces the cache. -/
def RefreshStatus (now : Int) (o : FetchOutcome) (_st : CacheState) :
    CacheState × Bool :=
  (⟨FetchStatus o, now⟩, true)

/-- Model of `P2PoolStatusMonitor::IsReady` (`p2pool_status.cpp:58-62`). -/
def IsReady (now : Int) (o : FetchOutcome) (st : CacheState) : Bool :=
  (GetStatus now o st).1.connected

/-! ## `P2PoolClient::SubmitShare` (`p2pool_client.cpp:174-224`) -/

inductive ShareStatus where
  | Accepted
  | Rejected
  | Stale
  | Error
deriving Repr, DecidableEq

structure ShareResult where
  status : ShareStatus
  message : String
deriving Repr, DecidableEq

/-- Model of the response-interpretation half of `P2PoolClient::SubmitShare`:
how a successfully returned RPC `result` value is mapped to a `ShareResult`.
A `get_str()` on a non-string `status`/`message` field throws inside the
`try` block; the enclosing catch turns that into an `Error` result with the
exception text prefixed by `"Error: "`. -/
def submitShareResult (result : JValue) : ShareResult :=
  match result with
  | .obj entries =>
    if (JValue.obj entries).existsKey "status" then
      match (find_value (.obj entries) "status").getStr with
      | none => ⟨.Error, "Error: JSON value is not a string as expected"⟩
      | some status =>
        let msgField :=
          if (JValue.obj entries).existsKey "message" then
            (find_value (.obj entries) "message").getStr
          else some ""
        match msgField with
        | none => ⟨.Error, "Error: JSON value is not a string as expected"⟩
        | some message =>
          if status = "accepted" then
            ⟨.Accepted, if message = "" then "Share accepted" else message⟩
          else if status = "rejected" then
            ⟨.Rejected, if message = "" then "Share rejected" else message⟩
          else if status = "stale" then
            ⟨.Stale, if message = "" then "Share stale" else message⟩
          else
            ⟨.Accepted, "Share submitted"⟩
    else
      ⟨.Accepted, "Share accepted"⟩
  | .bool b =>
    if b then ⟨.Accepted, "Share accepted"⟩ else ⟨.Accepted, "Share submitted"⟩
  | _ => ⟨.Accepted, "Share submitted"⟩

/-! ## `P2PoolClient::ParseUrl` (`p2pool_client.cpp:56-71`) -/

/-- First index at which `pat` occurs as a contiguous sublist of `hay`
(model of `std::string::find` for a multi-character needle). -/
def findSub (hay pat : List Char) : Option Nat :=
  match hay with
  | [] => if pat = [] then some 0 else none
  | _ :: t =>
    if pat.isPrefixOf hay then some 0
    else (findSub t pat).map (· + 1)

/-- Model of `std::stoi`: skip leading whitespace, consume an optional
sign and then at least one decimal digit (stopping at the first
non-digit); `none` models the `std::invalid_argument` thrown when no
digits can be consumed. The out-of-range exception is not modelled: the
claims under study only exercise in-range ports. -/
def stoiM (s : String) : Option Int :=
  let cs := s.toList.dropWhile (fun c =>
    c = ' ' ∨ c = '\t' ∨ c = '\n' ∨ c = '\x0b' ∨ c = '\x0c' ∨ c = '\r')
  let signed : Bool × List Char :=
    match cs with
    | '-' :: t => (true, t)
    | '+' :: t => (false, t)
    | _ => (false, cs)
  let digits := signed.2.takeWhile Char.isDigit
  if digits.isEmpty then none
  else
    let mag : Int := digits.foldl (fun acc c => acc * 10 + (c.toNat - 48 : Int)) 0
    some (if signed.1 then -mag else mag)

/-- The `clean_url` computation of `ParseUrl`: the URL with everything up
to and including the first `"://"` stripped when present. -/
def cleanUrl (url : String) : List Char :=
  match findSub url.toList "://".toList with
  | some i => url.toList.drop (i + 3)
  | none => url.toList

/-- Model of `P2PoolClient::ParseUrl` (and hence of the constructor, whose
only work is to call it): yields the `(m_host, m_port)` pair, or an
`Except.error` for the `std::invalid_argument` that `std::stoi` throws on
a non-numeric port — the constructor does not catch it. -/
def ParseUrl (url : String) : Except String (String × Int) :=
  let clean := cleanUrl url
  match clean.findIdx? (fun c => c = ':') with
  | some colon_pos =>
    match stoiM (String.mk (clean.drop (colon_pos + 1))) with
    | some p => .ok (String.mk (clean.take colon_pos), p)
    | none => .error "stoi"
  | none => .ok (String.mk clean, 37889)

/-! ## `P2PoolProcessManager::CheckHttpHealth` (`p2pool_manager.cpp:486-534`) -/

/-- Model of the `P2PoolConfig` struct (`p2pool_manager.h:20-30`). -/
structure P2PoolConfig where
  binaryPath : String := ""
  walletAddress : String := ""
  host : String := "127.0.0.1"
  rpcPort : Int := 8232
  lightMode : Bool := false
  rpcUser : String := ""
  rpcPassword : String := ""
deriving Repr, DecidableEq

/-- The request parameters of one HTTP probe. -/
structure ProbeParams where
  host : String
  port : Nat
  timeoutSec : Nat
  path : String
deriving Repr, DecidableEq

/-- Environment outcome of one health probe: failure to obtain the
libevent objects, a callback invoked with `req == NULL` (connect failure
or timeout), or a response carrying a status code. -/
inductive ProbeOutcome where
  | noEventBase
  | noConn
  | noReq
  | cbNull
  | response (status : Nat)

/-- The connection parameters `CheckHttpHealth` hard-codes, as a function
of the manager's captured config (which the method can read but does not
use): host `127.0.0.1`, port `37889`, 3-second timeout, `GET /stats`. -/
def CheckHttpHealthParams (_cfg : P2PoolConfig) : ProbeParams :=
  ⟨"127.0.0.1", 37889, 3, "/stats"⟩

/-- Model of `P2PoolProcessManager::CheckHttpHealth`: `true` exactly when
a response arrived and its status code is 200. -/
def CheckHttpHealth (_cfg : P2PoolConfig) (o : ProbeOutcome) : Bool :=
  match o with
  | .response status => status = 200
  | _ => false

/-! ## `P2PoolProcessManager` restart machine (`p2pool_manager.cpp:198-236, 536-587`) -/

/-- The manager fields the monitor loop and `Restart` read and write. -/
structure MgrState where
  pid : Int := 0
  startTime : Int := 0
  running : Bool := false
  restartAttempts : Nat := 0
  httpFailures : Nat := 0
deriving Repr, DecidableEq

/-- Model of `P2PoolProcessManager::IsRunning`. -/
def IsRunning (s : MgrState) : Bool :=
  s.running

/-- Environment observations consumed by one monitor tick: the OS answer
to `kill(pid, 0)` for the current pid, the result of the HTTP health
probe, what a spawn would produce (`none` = `SpawnProcess` fails,
`some pid` = success with that child pid), and the current time. -/
structure TickEnv where
  osAlive : Bool
  httpHealthy : Bool
  spawnResult : Option Int
  now : Int

/-- Model of `P2PoolProcessManager::IsProcessAlive`: `false` without a
syscall for a non-positive pid, otherwise the OS answer. -/
def IsProcessAlive (pid : Int) (osAlive : Bool) : Bool :=
  if pid ≤ 0 then false else osAlive

/-- The backoff computation of `Restart` (`p2pool_manager.cpp:212`):
`std::min(1000 * (1 << (attempt - 1)), 16000)` for the 1-indexed attempt
number. -/
def backoffMs (attempt : Nat) : Nat :=
  min (1000 * 2 ^ (attempt - 1)) 16000

/-- What one `Restart` call did: the backoff it slept (`none` when it gave
up before computing one), whether a spawn was attempted, and its return
value. -/
structure RestartInfo where
  delaySlept : Option Nat
  spawnAttempted : Bool
  success : Bool
deriving Repr, DecidableEq

/-- Model of `P2PoolProcessManager::Restart` (`p2pool_manager.cpp:198-236`):
increments the attempt counter; past `MAX_RESTART_ATTEMPTS` it marks the
manager not running and returns failure without computing a backoff or
spawning; otherwise it sleeps the exponential backoff, kills and clears
any recorded pid, and respawns with the captured config. -/
def Restart (env : TickEnv) (s : MgrState) : MgrState × RestartInfo :=
  let attempts := s.restartAttempts + 1
  if MAX_RESTART_ATTEMPTS < attempts then
    ({ s with restartAttempts := attempts, running := false }, ⟨none, false, false⟩)
  else
    let d := backoffMs attempts
    match env.spawnResult with
    | none =>
      ({ s with restartAttempts := attempts, pid := 0, running := false },
       ⟨some d, true, false⟩)
    | some newPid =>
      ({ s with restartAttempts := attempts, pid := newPid, running := true,
                startTime := env.now, httpFailures := 0 },
       ⟨some d, true, true⟩)

/-- Result of one iteration of the monitor loop: the state after the
tick, whether the loop executed `break`, and the `Restart` record when a
restart was invoked this tick. -/
structure TickOut where
  state : MgrState
  brk : Bool
  info : Option RestartInfo
deriving Repr, DecidableEq

/-- Model of one iteration of `P2PoolProcessManager::MonitorThread`
(`p2pool_manager.cpp:540-584`): dead process ⇒ restart immediately; failed
HTTP probe ⇒ increment the failure counter and restart once it reaches
`MAX_HTTP_FAILURES`; successful probe ⇒ reset both counters. A failed
`Restart` breaks the loop. -/
def MonitorTick (env : TickEnv) (s : MgrState) : TickOut :=
  if IsProcessAlive s.pid env.osAlive = false then
    let r := Restart env s
    ⟨r.1, !r.2.success, some r.2⟩
  else if env.httpHealthy = false then
    let s1 := { s with httpFailures := s.httpFailures + 1 }
    if MAX_HTTP_FAILURES ≤ s1.httpFailures then
      let r := Restart env s1
      ⟨r.1, !r.2.success, some r.2⟩
    else ⟨s1, false, none⟩
  else
    ⟨{ s with httpFailures := 0, restartAttempts := 0 }, false, none⟩

/-- The monitor loop run over a finite schedule of tick environments
(the schedule length models how long `m_stopMonitoring` stays false).
Returns the final state and, per executed tick, the tick's `Restart`
record; a tick that breaks ends the run, leaving the rest of the schedule
unprocessed. -/
def MonitorRun : List TickEnv → MgrState → MgrState × List (Option RestartInfo)
  | [], s => (s, [])
  | env :: rest, s =>
    let t := MonitorTick env s
    if t.brk then (t.state, [t.info])
    else
      let r := MonitorRun rest t.state
      (r.1, t.info :: r.2)

/-! ## `P2PoolProcessManager::KillProcess` (POSIX branch,
`p2pool_manager.cpp:320-351`) -/

/-- What one `KillProcess` call did to the OS process. -/
structure KillResult where
  sigtermSent : Bool
  sigkillSent : Bool
deriving Repr, DecidableEq

/-- The polling loop of `KillProcess`: `aliveAt i` is `IsProcessAlive`'s
answer at the i-th poll (the i-th check happens after `100*i` ms of the
grace period have elapsed); `remaining` is the number of 100 ms slots left
in the grace period. Returns whether the loop exhausted the grace period
with the process still alive at every poll, i.e. whether SIGKILL is sent. -/
def killLoop (aliveAt : Nat → Bool) : Nat → Nat → Bool
  | _, 0 => true
  | i, remaining + 1 => if aliveAt i then killLoop aliveAt (i + 1) remaining else false

/-- Model of `P2PoolProcessManager::KillProcess`: non-positive pids return
immediately with no signal; otherwise SIGTERM is sent, and only when the
`kill` syscall succeeded (`sigtermOk`) does the code poll liveness every
100 ms across the `GRACEFUL_SHUTDOWN_WAIT_MS` grace period, escalating to
SIGKILL only when every poll saw the process alive. -/
def KillProcess (pid : Int) (sigtermOk : Bool) (aliveAt : Nat → Bool) : KillResult :=
  if pid ≤ 0 then ⟨false, false⟩
  else if sigtermOk then
    ⟨true, killLoop aliveAt 0 (GRACEFUL_SHUTDOWN_WAIT_MS / 100)⟩
  else ⟨true, false⟩

/-! ## Helper lemmas -/

theorem Restart_delay_eq (env : TickEnv) (s : MgrState)
    (h : s.restartAttempts + 1 ≤ MAX_RESTART_ATTEMPTS) :
    (Restart env s).2.delaySlept = some (backoffMs (s.restartAttempts + 1)) := by
  unfold Restart
  rw [if_neg (Nat.not_lt.mpr h)]
  obtain ⟨osAlive, httpHealthy, spawnResult, now⟩ := env
  cases spawnResult <;> rfl

theorem Restart_giveup (env : TickEnv) (s : MgrState)
    (h : MAX_RESTART_ATTEMPTS ≤ s.restartAttempts) :
    Restart env s =
      ({ s with restartAttempts := s.restartAttempts + 1, running := false },
       ⟨none, false, false⟩) := by
  unfold Restart
  rw [if_pos (Nat.lt_succ_of_le h)]

/-- Claim C2: for every restart attempt n in 1..5 the backoff slept before the
respawn is min(1000·2^(n-1), 16000) ms — concretely 1000, 2000, 4000,
8000, 16000 — and a sixth attempt computes no delay at all because the
give-up check precedes the backoff computation. -/
theorem restart_backoff_schedule
    (n : Nat) (h1 : 1 ≤ n) (h5 : n ≤ MAX_RESTART_ATTEMPTS)
    (env : TickEnv) (s : MgrState) (hA : s.restartAttempts = n - 1) :
    (Restart env s).2.delaySlept = some (min (1000 * 2 ^ (n - 1)) 16000) ∧
    backoffMs 1 = 1000 ∧ backoffMs 2 = 2000 ∧ backoffMs 3 = 4000 ∧
    backoffMs 4 = 8000 ∧ backoffMs 5 = 16000 ∧
    (∀ env2 : TickEnv, ∀ s2 : MgrState, s2.restartAttempts = MAX_RESTART_ATTEMPTS →
      (Restart env2 s2).2.delaySlept = none) := by
  refine ⟨?_, by decide, by decide, by decide, by decide, by decide, ?_⟩
  · have hn : s.restartAttempts + 1 = n := by omega
    have := Restart_delay_eq env s (by omega)
    rw [this, hn, backoffMs]
  · intro env2 s2 h2
    rw [Restart_giveup env2 s2 (le_of_eq h2.symm)]

theorem restart_backoff_schedule_witness :
    1 ≤ 3 ∧ 3 ≤ MAX_RESTART_ATTEMPTS ∧
    (MgrState.mk 11 0 true 2 0).restartAttempts = 3 - 1 ∧
    ((Restart ⟨true, true, none, 0⟩ (MgrState.mk 11 0 true 2 0)).2.delaySlept =
        some (min (1000 * 2 ^ (3 - 1)) 16000) ∧
      backoffMs 1 = 1000 ∧ backoffMs 2 = 2000 ∧ backoffMs 3 = 4000 ∧
      backoffMs 4 = 8000 ∧ backoffMs 5 = 16000 ∧
      (∀ env2 : TickEnv, ∀ s2 : MgrState, s2.restartAttempts = MAX_RESTART_ATTEMPTS →
        (Restart env2 s2).2.delaySlept = none)) :=
  ⟨by decide, by decide, rfl,
   restart_backoff_schedule 3 (by decide) (by decide) ⟨true, true, none, 0⟩
     (MgrState.mk 11 0 true 2 0) rfl⟩

/-- Claim C1: once the restart sequence increments the attempt counter past
MAX_RESTART_ATTEMPTS (5), the tick that triggered it (a dead process, or
an HTTP-failure count reaching its threshold) leaves the supervisor not
running, computes no backoff, attempts no spawn, and breaks the monitor
loop: the remaining schedule is never processed. -/
theorem monitor_gives_up_terminally_after_max_attempts
    (s : MgrState) (env : TickEnv) (envs : List TickEnv)
    (hA : MAX_RESTART_ATTEMPTS ≤ s.restartAttempts)
    (htrig : IsProcessAlive s.pid env.osAlive = false ∨
      (env.httpHealthy = false ∧ MAX_HTTP_FAILURES ≤ s.httpFailures + 1)) :
    IsRunning (MonitorTick env s).state = false ∧
    (MonitorTick env s).brk = true ∧
    (MonitorTick env s).info = some ⟨none, false, false⟩ ∧
    MonitorRun (env :: envs) s = ((MonitorTick env s).state, [some ⟨none, false, false⟩]) := by
  have key : IsRunning (MonitorTick env s).state = false ∧
      (MonitorTick env s).brk = true ∧
      (MonitorTick env s).info = some ⟨none, false, false⟩ := by
    unfold MonitorTick
    by_cases hd : IsProcessAlive s.pid env.osAlive = false
    · rw [if_pos hd]
      simp [Restart_giveup env s hA, IsRunning]
    · rcases htrig with hdead | ⟨hh, hf⟩
      · exact absurd hdead hd
      · rw [if_neg hd, if_pos hh, if_pos hf]
        have hg := Restart_giveup env { s with httpFailures := s.httpFailures + 1 } hA
        simp [hg, IsRunning]
  refine ⟨key.1, key.2.1, key.2.2, ?_⟩
  unfold MonitorRun
  rw [if_pos key.2.1, key.2.2]

theorem monitor_gives_up_terminally_after_max_attempts_witness :
    MAX_RESTART_ATTEMPTS ≤ (MgrState.mk 100 0 true 5 0).restartAttempts ∧
    (IsRunning (MonitorTick ⟨false, true, some 7, 1⟩ (MgrState.mk 100 0 true 5 0)).state = false ∧
     (MonitorTick ⟨false, true, some 7, 1⟩ (MgrState.mk 100 0 true 5 0)).brk = true ∧
     (MonitorTick ⟨false, true, some 7, 1⟩ (MgrState.mk 100 0 true 5 0)).info =
       some ⟨none, false, false⟩ ∧
     MonitorRun [⟨false, true, some 7, 1⟩, ⟨true, true, some 8, 2⟩] (MgrState.mk 100 0 true 5 0) =
       ((MonitorTick ⟨false, true, some 7, 1⟩ (MgrState.mk 100 0 true 5 0)).state,
        [some ⟨none, false, false⟩])) :=
  ⟨by decide,
   monitor_gives_up_terminally_after_max_attempts (MgrState.mk 100 0 true 5 0)
     ⟨false, true, some 7, 1⟩ [⟨true, true, some 8, 2⟩] (by decide) (Or.inl (by decide))⟩

/-- Claim C7: a tick whose process is alive and whose HTTP probe succeeds resets
both the consecutive HTTP-failure counter and the cumulative
restart-attempt counter to zero, whatever their prior values, and neither
restarts nor breaks the loop. -/
theorem healthy_probe_resets_counters
    (env : TickEnv) (s : MgrState)
    (halive : IsProcessAlive s.pid env.osAlive = true)
    (hh : env.httpHealthy = true) :
    (MonitorTick env s).state = { s with httpFailures := 0, restartAttempts := 0 } ∧
    (MonitorTick env s).state.httpFailures = 0 ∧
    (MonitorTick env s).state.restartAttempts = 0 ∧
    (MonitorTick env s).brk = false ∧
    (MonitorTick env s).info = none := by
  unfold MonitorTick
  rw [if_neg (by simp [halive]), if_neg (by simp [hh])]
  exact ⟨rfl, rfl, rfl, rfl, rfl⟩

theorem healthy_probe_resets_counters_witness :
    IsProcessAlive (MgrState.mk 9 0 true 4 2).pid (TickEnv.mk true true none 0).osAlive = true ∧
    (TickEnv.mk true true none 0).httpHealthy = true ∧
    ((MonitorTick (TickEnv.mk true true none 0) (MgrState.mk 9 0 true 4 2)).state =
        { MgrState.mk 9 0 true 4 2 with httpFailures := 0, restartAttempts := 0 } ∧
      (MonitorTick (TickEnv.mk true true none 0) (MgrState.mk 9 0 true 4 2)).state.httpFailures = 0 ∧
      (MonitorTick (TickEnv.mk true true none 0) (MgrState.mk 9 0 true 4 2)).state.restartAttempts = 0 ∧
      (MonitorTick (TickEnv.mk true true none 0) (MgrState.mk 9 0 true 4 2)).brk = false ∧
      (MonitorTick (TickEnv.mk true true none 0) (MgrState.mk 9 0 true 4 2)).info = none) :=
  ⟨by decide, by decide,
   healthy_probe_resets_counters (TickEnv.mk true true none 0) (MgrState.mk 9 0 true 4 2)
     (by decide) (by decide)⟩

theorem killLoop_true_iff (aliveAt : Nat → Bool) :
    ∀ r i, killLoop aliveAt i r = true ↔ ∀ j, j < r → aliveAt (i + j) = true := by
  intro r
  induction r with
  | zero => intro i; simp [killLoop]
  | succ n ih =>
    intro i
    unfold killLoop
    cases h : aliveAt i with
    | false =>
      rw [if_neg (by simp)]
      simp only [Bool.false_eq_true, false_iff]
      intro hall
      have h0 := hall 0 (Nat.succ_pos n)
      rw [Nat.add_zero, h] at h0
      exact absurd h0 (by simp)
    | true =>
      rw [if_pos rfl, ih (i + 1)]
      constructor
      · intro hall j hj
        cases j with
        | zero => simpa using h
        | succ k =>
          have := hall k (by omega)
          simpa [Nat.add_assoc, Nat.add_comm 1 k] using this
      · intro hall j hj
        have := hall (j + 1) (by omega)
        simpa [Nat.add_assoc, Nat.add_comm 1 j] using this

/-- Claim C3: for a positive pid with the SIGTERM syscall succeeding,
KillProcess sends the graceful signal and then polls liveness once per
100 ms slot of the 5000 ms grace period; it escalates to SIGKILL exactly
when every one of those polls still saw the process alive — never when
some poll within the grace period saw it exited. -/
theorem kill_process_graceful_escalation
    (pid : Int) (aliveAt : Nat → Bool) (hp : 0 < pid) :
    (KillProcess pid true aliveAt).sigtermSent = true ∧
    ((KillProcess pid true aliveAt).sigkillSent = true ↔
      ∀ i, i < GRACEFUL_SHUTDOWN_WAIT_MS / 100 → aliveAt i = true) := by
  unfold KillProcess
  rw [if_neg (by omega : ¬ pid ≤ 0), if_pos rfl]
  refine ⟨rfl, ?_⟩
  simpa using killLoop_true_iff aliveAt (GRACEFUL_SHUTDOWN_WAIT_MS / 100) 0

theorem kill_process_graceful_escalation_witness :
    (0 : Int) < 1 ∧
    ((KillProcess 1 true (fun _ => true)).sigtermSent = true ∧
      ((KillProcess 1 true (fun _ => true)).sigkillSent = true ↔
        ∀ i, i < GRACEFUL_SHUTDOWN_WAIT_MS / 100 → (fun _ => true) i = true)) :=
  ⟨by decide, kill_process_graceful_escalation 1 (fun _ => true) (by decide)⟩

theorem findIdx_colon_none (l : List Char) (h : ':' ∉ l) :
    l.findIdx? (fun c => c = ':') = none := by
  induction l with
  | nil => rfl
  | cons c t ih =>
    have hc : c ≠ ':' := fun hc => h (hc ▸ List.mem_cons_self c t)
    have ht : ':' ∉ t := fun hm => h (List.mem_cons_of_mem c hm)
    rw [List.findIdx?_cons]
    simp [hc, ih ht]

/-- Claim C9: whenever the remainder of the URL after stripping a scheme prefix
contains no colon, the constructor's ParseUrl yields that remainder as the
host and the default port 37889; and on "http://localhost:abc" the
std::stoi call on the text after the colon throws, so construction
propagates an exception instead of returning a classified failure. -/
theorem parse_url_default_port_and_stoi_exception
    (url : String) (h : ':' ∉ cleanUrl url) :
    ParseUrl url = .ok (String.mk (cleanUrl url), 37889) ∧
    ParseUrl "http://localhost:abc" = .error "stoi" := by
  constructor
  · simp only [ParseUrl, findIdx_colon_none (cleanUrl url) h]
  · rfl

theorem parse_url_default_port_and_stoi_exception_witness :
    ':' ∉ cleanUrl "http://myhost" ∧
    (ParseUrl "http://myhost" = .ok (String.mk (cleanUrl "http://myhost"), 37889) ∧
      ParseUrl "http://localhost:abc" = .error "stoi") :=
  ⟨by decide, parse_url_default_port_and_stoi_exception "http://myhost" (by decide)⟩

/-- Claim C10: the monitor's HTTP health probe always targets host 127.0.0.1,
port 37889, with a 3-second timeout and path /stats, whatever config the
manager captured at Start (its host and rpcPort included), and judges the
worker healthy exactly when the response status code is 200. -/
theorem check_http_health_fixed_target
    (cfg cfg2 : P2PoolConfig) (o : ProbeOutcome) (status : Nat) :
    CheckHttpHealthParams cfg = ⟨"127.0.0.1", 37889, 3, "/stats"⟩ ∧
    CheckHttpHealth cfg o = CheckHttpHealth cfg2 o ∧
    (CheckHttpHealth cfg (.response status) = true ↔ status = 200) ∧
    CheckHttpHealth cfg .cbNull = false ∧
    CheckHttpHealth cfg .noEventBase = false ∧
    CheckHttpHealth cfg .noConn = false ∧
    CheckHttpHealth cfg .noReq = false := by
  refine ⟨rfl, rfl, ?_, rfl, rfl, rfl, rfl⟩
  simp [CheckHttpHealth]

/-- Claim C4 counterexample: the claim says every parsed 200 response other than
the enumerated failures returns its result field verbatim, but the source
throws "expected reply to have result" on a parsed empty JSON object
(whose error field is null), returning no result at all. -/
theorem call_method_empty_object_counterexample :
    CallMethod 200 (some (JValue.obj [])) = .error "expected reply to have result" ∧
    (find_value (JValue.obj []) "error").isNull = true ∧
    ∀ v : JValue, CallMethod 200 (some (JValue.obj [])) ≠ .ok v := by
  refine ⟨rfl, rfl, ?_⟩
  intro v hv
  rw [show CallMethod 200 (some (JValue.obj [])) = .error "expected reply to have result" from rfl] at hv
  exact absurd hv (by simp)

/-- Claim C4 (amended): CallMethod classifies outcomes as the claim states,
except that a parsed 200 response that is an empty JSON object fails with
a missing-result error rather than returning its (null) result field; the
verbatim-result rule holds for every parsed nonempty object with a null
error field, and the RPC-error message for the example body contains
"method not found". -/
theorem call_method_classification
    (st : Nat) (body : Option JValue) :
    CallMethod 0 body = .error "couldn't connect to p2pool server" ∧
    (st ≠ 0 → st ≠ 200 → CallMethod st body = .error ("server returned HTTP error " ++ toString st)) ∧
    CallMethod 200 none = .error "couldn't parse reply from server" ∧
    (∀ v : JValue, v.isObject = false →
      CallMethod 200 (some v) = .error "JSON value is not an object as expected") ∧
    CallMethod 200 (some (.obj [])) = .error "expected reply to have result" ∧
    (∀ entries, entries ≠ [] → (find_value (.obj entries) "error").isNull = false →
      CallMethod 200 (some (.obj entries)) =
        .error ("RPC error: " ++ (find_value (.obj entries) "error").write)) ∧
    (∃ a b : String,
      CallMethod 200 (some (.obj [("error",
          .obj [("code", .num (-32601)), ("message", .str "method not found")])])) =
        .error (a ++ "method not found" ++ b)) ∧
    (∀ entries, entries ≠ [] → (find_value (.obj entries) "error").isNull = true →
      CallMethod 200 (some (.obj entries)) = .ok (find_value (.obj entries) "result")) := by
  refine ⟨rfl, ?_, rfl, ?_, rfl, ?_, ?_, ?_⟩
  · intro h0 h200
    unfold CallMethod
    rw [if_neg h0, if_pos h200]
  · intro v hv
    cases v with
    | obj entries => simp [JValue.isObject] at hv
    | null => rfl
    | bool b => rfl
    | num n => rfl
    | str s => rfl
    | arr elems => rfl
  · intro entries hne herr
    cases entries with
    | nil => exact absurd rfl hne
    | cons e es =>
      show (if (find_value (.obj (e :: es)) "error").isNull then _ else
        Except.error ("RPC error: " ++ (find_value (.obj (e :: es)) "error").write)) = _
      rw [if_neg (by simp [herr])]
  · exact ⟨"RPC error: \x7b\"code\":-32601,\"message\":\"", "\"\x7d", rfl⟩
  · intro entries hne herr
    cases entries with
    | nil => exact absurd rfl hne
    | cons e es =>
      show (if (find_value (.obj (e :: es)) "error").isNull then
        Except.ok (find_value (.obj (e :: es)) "result") else _) = _
      rw [if_pos (by simp [herr])]

theorem call_method_classification_witness :
    ((500 : Nat) ≠ 0 ∧ (500 : Nat) ≠ 200 ∧
      CallMethod 500 none = .error ("server returned HTTP error " ++ toString 500)) ∧
    ([(("result" : String), JValue.num 42)] ≠ [] ∧
      (find_value (.obj [("result", JValue.num 42)]) "error").isNull = true ∧
      CallMethod 200 (some (.obj [("result", JValue.num 42)])) =
        .ok (find_value (.obj [("result", JValue.num 42)]) "result")) :=
  ⟨⟨by decide, by decide,
    (call_method_classification 500 none).2.1 (by decide) (by decide)⟩,
   ⟨by simp, rfl,
    (call_method_classification 200 (some (.obj [("result", JValue.num 42)]))).2.2.2.2.2.2.2
      [("result", JValue.num 42)] (by simp) rfl⟩⟩

theorem tryNum_connected (s : P2PoolStatus) (v : JValue) (g : JValue → Except String Int)
    (upd : P2PoolStatus → Int → P2PoolStatus)
    (hu : ∀ s' n, (upd s' n).connected = s'.connected) :
    (tryNum s v g upd).1.connected = s.connected := by
  unfold tryNum
  split
  · split <;> simp [hu]
  · rfl

theorem extractSeq_connected (r : P2PoolStatus × Bool) (f : P2PoolStatus → P2PoolStatus × Bool)
    (hr : r.1.connected = true) (hf : ∀ s, s.connected = true → (f s).1.connected = true) :
    (extractSeq r f).1.connected = true := by
  unfold extractSeq
  split
  · exact hr
  · exact hf r.1 hr

theorem extractSteps_connected (v : JValue) (s0 : P2PoolStatus) (h : s0.connected = true) :
    (extractSteps v s0).1.connected = true := by
  unfold extractSteps
  refine extractSeq_connected _ _ ?_ ?_
  · split
    · rw [tryNum_connected _ _ _ (fun s n => { s with connectedMiners := n }) (fun _ _ => rfl)]
      exact h
    · split
      · rw [tryNum_connected _ _ _ (fun s n => { s with connectedMiners := n }) (fun _ _ => rfl)]
        exact h
      · exact h
  · intro s1 h1
    refine extractSeq_connected _ _ ?_ ?_
    · rw [tryNum_connected _ _ _ (fun s n => { s with totalShares := n }) (fun _ _ => rfl)]
      exact h1
    · intro s2 h2
      refine extractSeq_connected _ _ ?_ ?_
      · split <;>
          (rw [tryNum_connected _ _ _ (fun s n => { s with poolHashrate := n }) (fun _ _ => rfl)]
           exact h2)
      · intro s3 h3
        refine extractSeq_connected _ _ ?_ ?_
        · split <;>
            (rw [tryNum_connected _ _ _ (fun s n => { s with shareDifficulty := n })
              (fun _ _ => rfl)]
             exact h3)
        · intro s4 h4
          refine extractSeq_connected _ _ ?_ ?_
          · rw [tryNum_connected _ _ _ (fun s n => { s with lastShareTimestamp := n })
              (fun _ _ => rfl)]
            exact h4
          · intro s5 h5
            refine extractSeq_connected _ _ ?_ ?_
            · split <;>
                (rw [tryNum_connected _ _ _ (fun s n => { s with networkDifficulty := n })
                  (fun _ _ => rfl)]
                 exact h5)
            · intro s6 h6
              refine extractSeq_connected _ _ ?_ ?_
              · rw [tryNum_connected _ _ _ (fun s n => { s with effortPercent := n })
                  (fun _ _ => rfl)]
                exact h6
              · intro s7 h7
                split
                · split
                  · rw [tryNum_connected _ _ _ (fun s n => { s with connectedMiners := n })
                      (fun _ _ => rfl)]
                    exact h7
                  · exact h7
                · exact h7

theorem extractStats_connected (v : JValue) : (extractStats v).connected = true := by
  show (if v.isObject = true then
      (extractSteps v { P2PoolStatus.init with connected := true }).1
    else { P2PoolStatus.init with connected := true }).connected = true
  split
  · exact extractSteps_connected v _ rfl
  · rfl

/-- Claim C5 counterexample: the claim demands connected=false with every
numeric field zero on "any exception during the fetch", but a 200 reply
whose parsed body carries an int32-out-of-range "connections" value makes
univalue get_int throw during field extraction — after connected was
already set true at p2pool_status.cpp:152 — and the catch at line 237
returns that snapshot: the fetch threw, yet connected=true. -/
theorem fetch_extraction_exception_counterexample :
    FetchThrew (.reply 200 (.parsed (.obj [("connections", .num 5000000000)]))) = true ∧
    FetchStatus (.reply 200 (.parsed (.obj [("connections", .num 5000000000)]))) =
      { P2PoolStatus.init with connected := true } ∧
    (FetchStatus (.reply 200 (.parsed (.obj [("connections", .num 5000000000)])))).connected =
      true ∧
    FetchStatus (.reply 200 (.parsed (.obj [("connections", .num 5000000000)]))) ≠
      P2PoolStatus.init := by
  refine ⟨rfl, rfl, rfl, by decide⟩

/-- Claim C5 (amended): every stats-fetch failure occurring before the
body parses — an exception inside the try block before the reply is
processed (e.g. the URL-port stoi), failure to obtain libevent objects, a
connect failure or timeout (status code 0), any non-200 status, an empty
body, an unparsable body — produces the default snapshot: connected=false
with every numeric field zero; the public status API built on it returns
that plain value (IsReady reporting false) rather than raising; and an
exception thrown by a univalue getter during field extraction of a parsed
200 body is caught as well — never escaping — but yields the
partially-built snapshot, whose connected flag is true, not the zero
snapshot. -/
theorem fetch_failure_classification (o : FetchOutcome)
    (h : o = .urlException ∨ o = .noEventBase ∨ o = .noConn ∨ o = .noReq ∨
         ∃ sc body, o = .reply sc body ∧
           (sc ≠ 200 ∨ body = .empty ∨ body = .unparsable)) :
    FetchStatus o = P2PoolStatus.init ∧
    (FetchStatus o).connected = false ∧
    (FetchStatus o).connectedMiners = 0 ∧
    (FetchStatus o).totalShares = 0 ∧
    (FetchStatus o).poolHashrate = 0 ∧
    (FetchStatus o).shareDifficulty = 0 ∧
    (FetchStatus o).lastShareTimestamp = 0 ∧
    (FetchStatus o).networkDifficulty = 0 ∧
    (FetchStatus o).effortPercent = 0 ∧
    (∀ now : Int, ∀ st : CacheState, CACHE_TTL_SECONDS ≤ now - st.lastUpdate →
      (GetStatus now o st).1 = P2PoolStatus.init ∧ IsReady now o st = false) ∧
    (∀ now : Int, ∀ st : CacheState,
      (RefreshStatus now o st).1.cachedStatus = P2PoolStatus.init) ∧
    (∀ v : JValue, (FetchStatus (.reply 200 (.parsed v))).connected = true) := by
  have hmain : FetchStatus o = P2PoolStatus.init := by
    rcases h with rfl | rfl | rfl | rfl | ⟨sc, body, rfl, hbad⟩
    · rfl
    · rfl
    · rfl
    · rfl
    · rcases hbad with hsc | rfl | rfl
      · simp [FetchStatus, hsc]
      · by_cases h200 : sc = 200 <;> simp [FetchStatus, h200]
      · by_cases h200 : sc = 200 <;> simp [FetchStatus, h200]
  refine ⟨hmain, by simp [hmain, P2PoolStatus.init], by simp [hmain, P2PoolStatus.init],
    by simp [hmain, P2PoolStatus.init], by simp [hmain, P2PoolStatus.init],
    by simp [hmain, P2PoolStatus.init], by simp [hmain, P2PoolStatus.init],
    by simp [hmain, P2PoolStatus.init], by simp [hmain, P2PoolStatus.init], ?_, ?_, ?_⟩
  · intro now st hle
    constructor
    · unfold GetStatus
      rw [if_neg (not_lt.mpr hle)]
      exact hmain
    · unfold IsReady GetStatus
      rw [if_neg (not_lt.mpr hle)]
      simp [hmain, P2PoolStatus.init]
  · intro now st
    simp [RefreshStatus, hmain]
  · intro v
    simpa [FetchStatus] using extractStats_connected v

theorem fetch_failure_classification_witness :
    ((FetchOutcome.reply 500 .unparsable) = .urlException ∨
      (FetchOutcome.reply 500 .unparsable) = .noEventBase ∨
      (FetchOutcome.reply 500 .unparsable) = .noConn ∨
      (FetchOutcome.reply 500 .unparsable) = .noReq ∨
      ∃ sc body, (FetchOutcome.reply 500 .unparsable) = .reply sc body ∧
        (sc ≠ 200 ∨ body = .empty ∨ body = .unparsable)) ∧
    FetchStatus (.reply 500 .unparsable) = P2PoolStatus.init ∧
    FetchStatus (.reply 0 .empty) = P2PoolStatus.init ∧
    (FetchStatus (.reply 500 .unparsable)).connected = false ∧
    (GetStatus 10 (.reply 500 .unparsable) ⟨P2PoolStatus.init, 0⟩).1 = P2PoolStatus.init ∧
    IsReady 10 (.reply 500 .unparsable) ⟨P2PoolStatus.init, 0⟩ = false ∧
    (FetchStatus (.reply 200 (.parsed (.obj [("connections", .num 3)])))).connected = true :=
  ⟨Or.inr (Or.inr (Or.inr (Or.inr ⟨500, .unparsable, rfl, Or.inl (by decide)⟩))),
   (fetch_failure_classification _
     (Or.inr (Or.inr (Or.inr (Or.inr ⟨500, .unparsable, rfl, Or.inl (by decide)⟩))))).1,
   (fetch_failure_classification _
     (Or.inr (Or.inr (Or.inr (Or.inr ⟨0, .empty, rfl, Or.inr (Or.inl rfl)⟩))))).1,
   (fetch_failure_classification _
     (Or.inr (Or.inr (Or.inr (Or.inr ⟨500, .unparsable, rfl, Or.inl (by decide)⟩))))).2.1,
   ((fetch_failure_classification _
     (Or.inr (Or.inr (Or.inr (Or.inr ⟨500, .unparsable, rfl, Or.inl (by decide)⟩))))).2.2.2.2.2.2.2.2.2.1
       10 ⟨P2PoolStatus.init, 0⟩ (by decide)).1,
   ((fetch_failure_classification _
     (Or.inr (Or.inr (Or.inr (Or.inr ⟨500, .unparsable, rfl, Or.inl (by decide)⟩))))).2.2.2.2.2.2.2.2.2.1
       10 ⟨P2PoolStatus.init, 0⟩ (by decide)).2,
   (fetch_failure_classification _
     (Or.inr (Or.inr (Or.inr (Or.inr ⟨500, .unparsable, rfl, Or.inl (by decide)⟩))))).2.2.2.2.2.2.2.2.2.2.2
       (.obj [("connections", .num 3)])⟩

/-- Claim C6: a GetStatus call strictly within the 5-second TTL of the last
fetch returns the cached snapshot, changes nothing and issues no fetch;
a call at or past the TTL, and every RefreshStatus call, issues exactly
one fetch and replaces both the snapshot and the timestamp — and when
that fetch fails (default snapshot) the cache now holds the disconnected
snapshot, not the stale one. -/
theorem status_cache_ttl (now : Int) (st : CacheState) (o : FetchOutcome) :
    (now - st.lastUpdate < CACHE_TTL_SECONDS →
      GetStatus now o st = (st.cachedStatus, st, false)) ∧
    (CACHE_TTL_SECONDS ≤ now - st.lastUpdate →
      GetStatus now o st = (FetchStatus o, ⟨FetchStatus o, now⟩, true)) ∧
    RefreshStatus now o st = (⟨FetchStatus o, now⟩, true) ∧
    (CACHE_TTL_SECONDS ≤ now - st.lastUpdate → FetchStatus o = P2PoolStatus.init →
      (GetStatus now o st).2.1 = ⟨P2PoolStatus.init, now⟩) := by
  refine ⟨?_, ?_, rfl, ?_⟩
  · intro hlt
    unfold GetStatus
    rw [if_pos hlt]
  · intro hle
    unfold GetStatus
    rw [if_neg (not_lt.mpr hle)]
  · intro hle hf
    unfold GetStatus
    rw [if_neg (not_lt.mpr hle)]
    simp [hf]

theorem status_cache_ttl_witness :
    ((3 : Int) - (CacheState.mk ⟨true, 1, 2, 3, 4, 5, 6, 7⟩ 0).lastUpdate < CACHE_TTL_SECONDS ∧
      GetStatus 3 (.reply 0 .empty) (CacheState.mk ⟨true, 1, 2, 3, 4, 5, 6, 7⟩ 0) =
        ((CacheState.mk ⟨true, 1, 2, 3, 4, 5, 6, 7⟩ 0).cachedStatus,
         CacheState.mk ⟨true, 1, 2, 3, 4, 5, 6, 7⟩ 0, false)) ∧
    (CACHE_TTL_SECONDS ≤ (10 : Int) - (CacheState.mk ⟨true, 1, 2, 3, 4, 5, 6, 7⟩ 0).lastUpdate ∧
      GetStatus 10 (.reply 0 .empty) (CacheState.mk ⟨true, 1, 2, 3, 4, 5, 6, 7⟩ 0) =
        (FetchStatus (.reply 0 .empty), ⟨FetchStatus (.reply 0 .empty), 10⟩, true) ∧
      (GetStatus 10 (.reply 0 .empty) (CacheState.mk ⟨true, 1, 2, 3, 4, 5, 6, 7⟩ 0)).2.1 =
        ⟨P2PoolStatus.init, 10⟩) :=
  ⟨⟨by decide,
    (status_cache_ttl 3 (CacheState.mk ⟨true, 1, 2, 3, 4, 5, 6, 7⟩ 0) (.reply 0 .empty)).1
      (by decide)⟩,
   ⟨by decide,
    (status_cache_ttl 10 (CacheState.mk ⟨true, 1, 2, 3, 4, 5, 6, 7⟩ 0) (.reply 0 .empty)).2.1
      (by decide),
    (status_cache_ttl 10 (CacheState.mk ⟨true, 1, 2, 3, 4, 5, 6, 7⟩ 0) (.reply 0 .empty)).2.2.2
      (by decide) rfl⟩⟩

/-- Claim C8: the RPC result of a share submission is mapped exactly as claimed:
boolean true ⇒ Accepted with the default message; status "stale" with no
message ⇒ Stale with the default stale message; status "rejected" with
message "too old" ⇒ Rejected carrying "too old"; an unrecognized status,
an object with no status field, and any other (truthy) non-object,
non-boolean response all ⇒ Accepted. -/
theorem submit_share_mapping :
    submitShareResult (.bool true) = ⟨.Accepted, "Share accepted"⟩ ∧
    submitShareResult (.obj [("status", .str "stale")]) = ⟨.Stale, "Share stale"⟩ ∧
    submitShareResult (.obj [("status", .str "rejected"), ("message", .str "too old")]) =
      ⟨.Rejected, "too old"⟩ ∧
    (∀ s : String, s ≠ "accepted" → s ≠ "rejected" → s ≠ "stale" →
      submitShareResult (.obj [("status", .str s)]) = ⟨.Accepted, "Share submitted"⟩) ∧
    (∀ entries, (JValue.obj entries).existsKey "status" = false →
      submitShareResult (.obj entries) = ⟨.Accepted, "Share accepted"⟩) ∧
    (∀ n : Int, submitShareResult (.num n) = ⟨.Accepted, "Share submitted"⟩) ∧
    (∀ s : String, submitShareResult (.str s) = ⟨.Accepted, "Share submitted"⟩) ∧
    (∀ elems, submitShareResult (.arr elems) = ⟨.Accepted, "Share submitted"⟩) := by
  refine ⟨rfl, rfl, rfl, ?_, ?_, fun n => rfl, fun s => rfl, fun elems => rfl⟩
  · intro s h1 h2 h3
    have hsteps : submitShareResult (.obj [("status", .str s)]) =
        (if s = "accepted" then (⟨.Accepted, "Share accepted"⟩ : ShareResult)
         else if s = "rejected" then ⟨.Rejected, "Share rejected"⟩
         else if s = "stale" then ⟨.Stale, "Share stale"⟩
         else ⟨.Accepted, "Share submitted"⟩) := by
      simp [submitShareResult, JValue.existsKey, find_value, JValue.getStr]
    rw [hsteps, if_neg h1, if_neg h2, if_neg h3]
  · intro entries hne
    simp [submitShareResult, hne]

theorem submit_share_mapping_witness :
    ("weird" ≠ "accepted" ∧ "weird" ≠ "rejected" ∧ "weird" ≠ "stale" ∧
      submitShareResult (.obj [("status", .str "weird")]) = ⟨.Accepted, "Share submitted"⟩) ∧
    ((JValue.obj [("ok", .bool true)]).existsKey "status" = false ∧
      submitShareResult (.obj [("ok", .bool true)]) = ⟨.Accepted, "Share accepted"⟩) :=
  ⟨⟨by decide, by decide, by decide,
    submit_share_mapping.2.2.2.1 "weird" (by decide) (by decide) (by decide)⟩,
   ⟨rfl, submit_share_mapping.2.2.2.2.1 [("ok", .bool true)] rfl⟩⟩
